import Mathlib

/- Verification development for the AirTrafficSim autopilot and aircraft facade
   (src/airtrafficsim/core/autopilot.py and src/airtrafficsim/core/aircraft.py).

   Modelling conventions:
   * Python strings are modelled as lists of characters (`Str`).
   * Python floats are modelled as rationals for the structural flight-plan code
     and as reals for the per-tick guidance update (which uses transcendental
     functions).
   * The navigation database (`Nav`), the geodesy utilities (`Cal`), and the
     performance model are not part of the given sources; they are passed in as
     structures of abstract functions, so theorems hold for every instantiation.
   * A Python statement that can raise (out-of-range indexing, `list.pop` on an
     empty list, a failed `int(...)` parse) is modelled in the `Option` monad:
     `none` means the Python call raised and produced no resulting state. -/

namespace AirTrafficSim

/-- Python strings modelled as lists of characters. -/
abbrev Str : Type := List Char

/-- Coerce a Lean string literal to the character-list model. -/
def str (s : String) : Str := s.data

/-- Python `list.insert(i, a)`: inserts before position `i`, clamping `i` to the
list length (Python never raises here for a non-negative index). -/
def pyInsert (i : ℕ) (a : α) (l : List α) : List α :=
  l.take i ++ a :: l.drop i

/-- Python `lst[-1] = v`: replace the last element (callers guard non-emptiness). -/
def setLast (l : List α) (v : α) : List α :=
  l.dropLast ++ [v]

/-- Python `str.zfill(2)`: left-pad with zeros to width 2. -/
def zfill2 (l : Str) : Str :=
  List.replicate (2 - l.length) '0' ++ l

/-- Python `int(s)` on a digit string: `none` models a raised `ValueError`. -/
def charsToNat? (l : Str) : Option ℕ :=
  if l ≠ [] ∧ l.all (·.isDigit) then
    some (l.foldl (fun acc c => acc * 10 + (c.toNat - 48)) 0)
  else none

/-- Python `len(set(l)) == 1`: all elements of a non-empty list are equal. -/
def allSame [DecidableEq α] : List α → Bool
  | [] => false
  | h :: t => t.all (· = h)

/-- Integer codes of `APLateralMode` (autopilot.py line 85: 1 heading, 2 LNAV). -/
def LATERAL_HEADING : ℕ := 1

/-- Integer code of `APLateralMode.LNAV`. -/
def LATERAL_LNAV : ℕ := 2

/-- Integer codes of `APThrottleMode` (autopilot.py line 81: 1 Auto, 2 Speed). -/
def THROTTLE_AUTO : ℕ := 1

/-- Integer code of `APThrottleMode.SPEED`. -/
def THROTTLE_SPEED : ℕ := 2

/-- Integer codes of `APSpeedMode` (autopilot.py line 79). -/
def SPEED_CONSTANT_MACH : ℕ := 1

/-- Integer code of `APSpeedMode.CONSTANT_CAS`. -/
def SPEED_CONSTANT_CAS : ℕ := 2

/-- Integer code of `APSpeedMode.ACCELERATE`. -/
def SPEED_ACCELERATE : ℕ := 3

/-- Integer code of `APSpeedMode.DECELERATE`. -/
def SPEED_DECELERATE : ℕ := 4

/-- Modelled from the spec: the global speed-reference enum `SpeedMode` has the
two values CAS and MACH (spec section 4.1); the codes only ever face equality
comparisons, so the concrete numbers are immaterial. -/
def SPEEDMODE_CAS : ℕ := 1

/-- Modelled from the spec: `SpeedMode.MACH` code. -/
def SPEEDMODE_MACH : ℕ := 2

/-- Modelled from the spec: traffic `VerticalMode` codes CLIMB/LEVEL/DESCENT
(spec sections 4.1 and 4.8 step 4); equality-only comparisons. -/
def VERTICAL_CLIMB : ℕ := 1

/-- Modelled from the spec: `VerticalMode.LEVEL` code. -/
def VERTICAL_LEVEL : ℕ := 2

/-- Modelled from the spec: `VerticalMode.DESCENT` code. -/
def VERTICAL_DESCENT : ℕ := 3

/-- One procedure expansion returned by `Nav.get_procedure`: the waypoint names,
the altitude-restriction values and the speed-restriction values (the two
restriction-type lists returned by the Python function are ignored by
`set_flight_plan`, so they are not modelled). -/
structure ProcLegs where
  wp : List Str
  altR : List ℚ
  spdR : List ℚ
  deriving DecidableEq

/-- The navigation database interface used by `set_flight_plan`
(`airtrafficsim.core.navigation.Nav` is not among the given sources, so its
operations are abstract function parameters; spec section 4.4 fixes their
meaning: `runwayCoord` returns the runway threshold latitude, longitude and
elevation, `getProc` expands a procedure, `wpCoord` resolves a waypoint
relative to a reference position). -/
structure Nav where
  runwayCoord : Str → Str → ℚ × ℚ × ℚ
  getProc : Str → Str → Str → Str → Str → ProcLegs
  wpCoord : Str → ℚ → ℚ → ℚ × ℚ

/-- Per-aircraft autopilot state: exactly the fields of the `Autopilot` arrays
read or written by `set_flight_plan`, `set_vectoring`, `set_holding`,
`set_direct` and `get_next_wp` for one aircraft slot. `lat`/`long` are the
autopilot target-position entries `self.lat[index]`/`self.long[index]`
(used as the reference for resolving the first waypoint, autopilot.py
line 291). -/
structure APState where
  lat : ℚ
  long : ℚ
  heading : ℚ
  dist : ℚ
  flight_plan_index : ℕ
  flight_plan_enroute : List Str
  flight_plan_name : List Str
  flight_plan_lat : List ℚ
  flight_plan_long : List ℚ
  flight_plan_target_alt : List ℚ
  flight_plan_target_speed : List ℚ
  hv_next_wp : Bool
  lateral_mode : ℕ
  auto_throttle_mode : ℕ
  flight_plan_updated : Bool
  departure_airport : Str
  departure_runway : Str
  sid : Str
  arrival_airport : Str
  arrival_runway : Str
  star : Str
  approach : Str
  cruise_alt : ℚ
  holding_round : ℚ
  holding_info : Option (Str × ℚ × ℚ)
  deriving DecidableEq

/-- A default autopilot slot (used only to build concrete evaluation inputs). -/
def apDefault : APState where
  lat := 0
  long := 0
  heading := 0
  dist := 0
  flight_plan_index := 0
  flight_plan_enroute := []
  flight_plan_name := []
  flight_plan_lat := []
  flight_plan_long := []
  flight_plan_target_alt := []
  flight_plan_target_speed := []
  hv_next_wp := false
  lateral_mode := LATERAL_HEADING
  auto_throttle_mode := THROTTLE_SPEED
  flight_plan_updated := false
  departure_airport := []
  departure_runway := []
  sid := []
  arrival_airport := []
  arrival_runway := []
  star := []
  approach := []
  cruise_alt := -1
  holding_round := 0
  holding_info := none

/-- Altitude back-fill scan (autopilot.py lines 336-338): processed from the
right, a leg whose target altitude is the sentinel −1 receives the resolved
altitude of the next (later) leg.  The second component is the resolved value
of the head (the accumulator the scan propagates leftwards); the base value 0
is never consulted because the caller first forces the last entry to 0. -/
def propAux : List ℚ → List ℚ × ℚ
  | [] => ([], 0)
  | v :: rest =>
    let p := propAux rest
    let w := if v = -1 then p.2 else v
    (w :: p.1, w)

/-- Target-altitude finalisation (autopilot.py lines 334-338): force the last
entry to 0, then back-fill sentinels from the right — applied only when the
list has more than one entry. -/
def backfillAlt (l : List ℚ) : List ℚ :=
  if 1 < l.length then (propAux (setLast l 0)).1 else l

/-- Opposite-runway identifier (autopilot.py lines 316-323):
`str(int(((int(s[2:4]) * 10 + 180) % 360) / 10)).zfill(2)` plus the
parallel-runway letter swap on the last character of the identifier;
`none` models the `ValueError` of a failed `int` parse. -/
def oppRunway (arrival_runway : Str) : Option Str := do
  let n ← charsToNat? ((arrival_runway.drop 2).take 2)
  let base := zfill2 (Nat.toDigits 10 (((n * 10 + 180) % 360) / 10))
  let letter ← arrival_runway.getLast?
  some (if letter = 'L' then base ++ ['R']
        else if letter = 'R' then base ++ ['L']
        else if letter = 'C' then base ++ ['C']
        else base)

/-- Waypoint coordinate resolution (autopilot.py lines 289-297): the first leg
resolves relative to the given reference position, every later leg relative to
the previously resolved leg. -/
def resolveCoords (nav : Nav) : List Str → ℚ → ℚ → List ℚ × List ℚ
  | [], _, _ => ([], [])
  | n :: rest, la, lo =>
    let c := nav.wpCoord n la lo
    let p := resolveCoords nav rest c.1 c.2
    (c.1 :: p.1, c.2 :: p.2)

/-- Stage of `set_flight_plan` before any procedure expansion (autopilot.py
lines 187-205): store the arguments, clear the leg lists, set the working leg
pointer to the given index plus one and raise the flight-plan-updated flag. -/
def stageStored (dep_a dep_r sid_ arr_a arr_r star_ appr : Str) (fp : List Str)
    (fpIdx : ℕ) (cruise : ℚ) (s : APState) : APState :=
  { s with departure_airport := dep_a, departure_runway := dep_r, sid := sid_,
           arrival_airport := arr_a, arrival_runway := arr_r, star := star_,
           approach := appr, cruise_alt := cruise,
           flight_plan_enroute := fp,
           flight_plan_name := [], flight_plan_lat := [], flight_plan_long := [],
           flight_plan_target_alt := [], flight_plan_target_speed := [],
           flight_plan_index := fpIdx + 1,
           flight_plan_updated := true }

/-- SID expansion (autopilot.py lines 209-219). -/
def stageSID (nav : Nav) (dep_a dep_r sid_ : Str) (s : APState) : APState :=
  if sid_ ≠ [] then
    let p := nav.getProc dep_a dep_r sid_ [] []
    if p.wp ≠ [] then
      { s with flight_plan_name := s.flight_plan_name ++ p.wp,
               flight_plan_target_alt := s.flight_plan_target_alt ++ p.altR,
               flight_plan_target_speed := s.flight_plan_target_speed ++ p.spdR,
               hv_next_wp := true, lateral_mode := LATERAL_LNAV,
               auto_throttle_mode := THROTTLE_AUTO }
    else s
  else s

/-- Enroute expansion (autopilot.py lines 222-230): target altitudes are
extended only when a cruise altitude is given, target speeds always receive
the sentinel −1. -/
def stageEnroute (fp : List Str) (cruise : ℚ) (s : APState) : APState :=
  if fp ≠ [] then
    { s with flight_plan_name := s.flight_plan_name ++ fp,
             flight_plan_target_alt := s.flight_plan_target_alt ++
               (if cruise > -1 then fp.map (fun _ => cruise) else []),
             flight_plan_target_speed := s.flight_plan_target_speed ++
               fp.map (fun _ => (-1 : ℚ)),
             hv_next_wp := true, lateral_mode := LATERAL_LNAV,
             auto_throttle_mode := THROTTLE_AUTO }
  else s

/-- STAR expansion (autopilot.py lines 233-242), keyed by the arrival runway
with its first two characters stripped. -/
def stageSTAR (nav : Nav) (arr_a arr_r star_ : Str) (s : APState) : APState :=
  if star_ ≠ [] then
    let p := nav.getProc arr_a (arr_r.drop 2) star_ [] []
    if p.wp ≠ [] then
      { s with flight_plan_name := s.flight_plan_name ++ p.wp,
               flight_plan_target_alt := s.flight_plan_target_alt ++ p.altR,
               flight_plan_target_speed := s.flight_plan_target_speed ++ p.spdR,
               hv_next_wp := true, lateral_mode := LATERAL_LNAV,
               auto_throttle_mode := THROTTLE_AUTO }
    else s
  else s

/-- Python `list.pop()` applied to the name, target-altitude and target-speed
lists in that order (autopilot.py lines 250-252 etc.); `none` models the
`IndexError` raised when one of them is empty. -/
def popLeg (s : APState) : Option APState :=
  if s.flight_plan_name = [] ∨ s.flight_plan_target_alt = [] ∨
     s.flight_plan_target_speed = [] then none
  else
    some { s with flight_plan_name := s.flight_plan_name.dropLast,
                  flight_plan_target_alt := s.flight_plan_target_alt.dropLast,
                  flight_plan_target_speed := s.flight_plan_target_speed.dropLast }

/-- Approach expansion (autopilot.py lines 244-286): the initial-approach
segment is anchored at the current last leg (read with `[-1]`, which raises on
an empty plan), a degenerate all-same-waypoint expansion keeps only its first
leg, and the final-approach segment replaces the then-last leg. -/
def stageApproach (nav : Nav) (arr_a arr_r appr : Str) (s : APState) :
    Option APState :=
  if appr = [] then some s
  else do
    let iaf ← s.flight_plan_name.getLast?
    let p := nav.getProc arr_a (arr_r.drop 2) appr (str "A") iaf
    let s ←
      if p.wp ≠ [] then
        if allSame p.wp then do
          let s ← popLeg s
          pure { s with
            flight_plan_name := s.flight_plan_name ++ p.wp.take 1,
            flight_plan_target_alt := s.flight_plan_target_alt ++ p.altR.take 1,
            flight_plan_target_speed := s.flight_plan_target_speed ++ p.spdR.take 1 }
        else do
          let s ← popLeg s
          pure { s with
            flight_plan_name := s.flight_plan_name ++ p.wp,
            flight_plan_target_alt := s.flight_plan_target_alt ++ p.altR,
            flight_plan_target_speed := s.flight_plan_target_speed ++ p.spdR }
      else pure s
    let p2 := nav.getProc arr_a (arr_r.drop 2) appr (appr.take 1) []
    if p2.wp ≠ [] then do
      let s ← popLeg s
      pure { s with
        flight_plan_name := s.flight_plan_name ++ p2.wp,
        flight_plan_target_alt := s.flight_plan_target_alt ++ p2.altR,
        flight_plan_target_speed := s.flight_plan_target_speed ++ p2.spdR,
        hv_next_wp := true, lateral_mode := LATERAL_LNAV,
        auto_throttle_mode := THROTTLE_AUTO }
    else pure s

/-- Coordinate resolution stage (autopilot.py lines 289-297). -/
def stageCoords (nav : Nav) (s : APState) : APState :=
  let p := resolveCoords nav s.flight_plan_name s.lat s.long
  { s with flight_plan_lat := p.1, flight_plan_long := p.2 }

/-- Arrival-runway stage (autopilot.py lines 300-331): when the last leg is
already named after the arrival runway its coordinates and altitude are
overwritten with the threshold, otherwise an `airport_runway` leg at the
threshold and an `airport_runway_END` leg at the reciprocal runway's threshold
are appended, both with target speed 0. -/
def stageArrival (nav : Nav) (arr_a arr_r : Str) (s : APState) : Option APState :=
  if arr_r ≠ [] then do
    let t := nav.runwayCoord arr_a (arr_r.drop 2)
    let lastName ← s.flight_plan_name.getLast?
    if lastName = arr_r then
      if s.flight_plan_target_alt = [] then none
      else
        some { s with flight_plan_lat := setLast s.flight_plan_lat t.1,
                      flight_plan_long := setLast s.flight_plan_long t.2.1,
                      flight_plan_target_alt := setLast s.flight_plan_target_alt t.2.2 }
    else do
      let s := { s with
        flight_plan_name := s.flight_plan_name ++ [arr_a ++ str "_" ++ arr_r],
        flight_plan_lat := s.flight_plan_lat ++ [t.1],
        flight_plan_long := s.flight_plan_long ++ [t.2.1],
        flight_plan_target_alt := s.flight_plan_target_alt ++ [t.2.2],
        flight_plan_target_speed := s.flight_plan_target_speed ++ [0] }
      let opp ← oppRunway arr_r
      let t2 := nav.runwayCoord arr_a opp
      pure { s with
        flight_plan_name := s.flight_plan_name ++
          [arr_a ++ str "_" ++ arr_r ++ str "_END"],
        flight_plan_lat := s.flight_plan_lat ++ [t2.1],
        flight_plan_long := s.flight_plan_long ++ [t2.2.1],
        flight_plan_target_alt := s.flight_plan_target_alt ++ [t2.2.2],
        flight_plan_target_speed := s.flight_plan_target_speed ++ [0] }
  else some s

/-- Assembly core of `set_flight_plan` (autopilot.py lines 187-331): every step
from storing the arguments through the arrival-runway handling, in source
order.  `none` models a Python exception escaping the method. -/
def sfpCore (nav : Nav) (s : APState) (dep_a dep_r sid_ arr_a arr_r star_ appr : Str)
    (fp : List Str) (fpIdx : ℕ) (cruise : ℚ) : Option APState :=
  (stageApproach nav arr_a arr_r appr
      (stageSTAR nav arr_a arr_r star_
        (stageEnroute fp cruise
          (stageSID nav dep_a dep_r sid_
            (stageStored dep_a dep_r sid_ arr_a arr_r star_ appr fp fpIdx cruise s))))).map
    (stageCoords nav) >>= stageArrival nav arr_a arr_r

/-- Finalisation of `set_flight_plan` (autopilot.py lines 333-349): back-fill
the target altitudes, then insert the synthetic departure leg at position 0
with the departure threshold position, the threshold elevation as target
altitude and target speed 0. -/
def sfpFinalize (depName : Str) (latD longD altD : ℚ) (s : APState) : APState :=
  { s with
    flight_plan_name := depName :: s.flight_plan_name,
    flight_plan_lat := latD :: s.flight_plan_lat,
    flight_plan_long := longD :: s.flight_plan_long,
    flight_plan_target_alt := altD :: backfillAlt s.flight_plan_target_alt,
    flight_plan_target_speed := 0 :: s.flight_plan_target_speed }

/-- `Autopilot.set_flight_plan` for one aircraft slot (autopilot.py
lines 182-351).  The departure threshold is resolved first (line 185, keyed by
the departure runway with its first two characters stripped); the synthetic
departure leg is named `departure_airport`, a space, `departure_runway`. -/
def set_flight_plan (nav : Nav) (s : APState)
    (dep_a dep_r sid_ arr_a arr_r star_ appr : Str)
    (fp : List Str) (fpIdx : ℕ) (cruise : ℚ) : Option APState :=
  let d := nav.runwayCoord dep_a (dep_r.drop 2)
  (sfpCore nav s dep_a dep_r sid_ arr_a arr_r star_ appr fp fpIdx cruise).map
    (sfpFinalize (dep_a ++ str " " ++ dep_r) d.1 d.2.1 d.2.2)

/-- Modelled from the spec: unit conversion `Unit.kts2mps` (spec section 4.2,
knots to metres per second; 1 knot = 1852 m / 3600 s).  The conversion module
is not among the given sources. -/
def kts2mps (x : ℚ) : ℚ := x * 1852 / 3600

/-- Python `%` (floored modulo, also `np.mod`) over the rationals. -/
def pymodQ (a b : ℚ) : ℚ := a - b * ⌊a / b⌋

/-- Geometry callbacks used by `Aircraft.set_vectoring` (aircraft.py
lines 175-180): `Cal.cal_dest_given_dist_bearing` plus the `np.rad2deg` and
`np.arccos` scalar functions, abstract because the calculation module is not
among the given sources. -/
structure VectCal where
  dest : ℚ → ℚ → ℚ → ℚ → ℚ × ℚ
  rad2deg : ℚ → ℚ
  arccos : ℚ → ℚ

/-- State visible to the aircraft facade for one aircraft: its `vectoring`
marker, the traffic-store kinematic entries it reads, and its autopilot slot. -/
structure AircraftState where
  vectoring : Str
  traffic_lat : ℚ
  traffic_long : ℚ
  traffic_cas : ℚ
  ap : APState
  deriving DecidableEq

/-- `Aircraft.get_next_wp` (aircraft.py lines 334-348): `none` when the leg
pointer has run past the plan, else the name at the pointer. -/
def get_next_wp (ac : AircraftState) : Option Str :=
  if ac.ap.flight_plan_index ≥ ac.ap.flight_plan_name.length then none
  else ac.ap.flight_plan_name.get? ac.ap.flight_plan_index

/-- `Aircraft.set_direct` (aircraft.py lines 128-138): resolves the slot index
and sets the autopilot lateral mode to LNAV; the `waypoint` argument is not
otherwise used. -/
def set_direct (_waypoint : Str) (ac : AircraftState) : AircraftState :=
  { ac with ap := { ac.ap with lateral_mode := LATERAL_LNAV } }

/-- `Aircraft.set_holding` (aircraft.py lines 140-156).  The round counter is
assigned before the navigation lookup runs.  Modelled from the spec:
`Nav.get_holding_procedure` (not among the given sources) fails with NotFound
when no holding definition exists for the fix/region pair (spec section 4.4),
modelled as an `Option`-valued lookup; the returned Boolean is true when that
NotFound error propagated out of `set_holding` (the method has no handler). -/
def set_holding (navHolding : Str → Str → Option (Str × ℚ × ℚ))
    (holding_time : ℚ) (holding_fix region : Str) (ac : AircraftState) :
    AircraftState × Bool :=
  let ac1 := { ac with ap := { ac.ap with holding_round := holding_time } }
  match navHolding holding_fix region with
  | some h => ({ ac1 with ap := { ac1.ap with holding_info := some h } }, false)
  | none => (ac1, true)

/-- `Aircraft.set_vectoring` (aircraft.py lines 158-191).  Takes effect only
when the aircraft is not already vectoring toward `fix` and `fix` is the next
waypoint; it then extends the leg distance by the distance covered at the
blended speed, derives a bearing from the law of cosines, places a virtual
waypoint at half the new distance, and inserts a "VECT" leg before the current
leg.  The target-speed entry of the current leg is assigned `v_2` before the
list insertion copies it.  `none` models the `IndexError` of the `[i]` reads
on the altitude and speed lists. -/
def set_vectoring (vc : VectCal) (vectoring_time v_2 : ℚ) (fix : Str)
    (ac : AircraftState) : Option AircraftState :=
  if ac.vectoring ≠ fix ∧ get_next_wp ac = some fix then do
    let new_dist := ac.ap.dist +
      kts2mps (ac.traffic_cas + v_2) * vectoring_time / 2000
    let bearing := pymodQ
      (ac.ap.heading + vc.rad2deg (vc.arccos (ac.ap.dist / new_dist)) + 360) 360
    let c := vc.dest ac.traffic_lat ac.traffic_long bearing (new_dist / 2)
    let i := ac.ap.flight_plan_index
    let lat' := pyInsert i c.1 ac.ap.flight_plan_lat
    let long' := pyInsert i c.2 ac.ap.flight_plan_long
    let name' := pyInsert i (str "VECT") ac.ap.flight_plan_name
    let altv ← ac.ap.flight_plan_target_alt.get? i
    let alt' := pyInsert i altv ac.ap.flight_plan_target_alt
    if i < ac.ap.flight_plan_target_speed.length then do
      let spdSet := ac.ap.flight_plan_target_speed.set i v_2
      let spdv ← spdSet.get? i
      let spd' := pyInsert i spdv spdSet
      pure { ac with vectoring := fix,
                     ap := { ac.ap with
                       flight_plan_lat := lat', flight_plan_long := long',
                       flight_plan_name := name',
                       flight_plan_target_alt := alt',
                       flight_plan_target_speed := spd' } }
    else none
  else some ac

/-- The full set of per-aircraft parallel arrays of the `Autopilot` class
(autopilot.py lines 16-110), one list entry per aircraft slot, in declaration
order. -/
structure AP where
  alt : List ℚ
  heading : List ℚ
  track_angle : List ℚ
  ap_rate_of_turn : List ℚ
  cas : List ℚ
  mach : List ℚ
  vs : List ℚ
  fpa : List ℚ
  lat : List ℚ
  long : List ℚ
  lat_next : List ℚ
  long_next : List ℚ
  lat_prev : List ℚ
  long_prev : List ℚ
  hv_next_wp : List Bool
  dist : List ℚ
  flight_plan_index : List ℕ
  flight_plan_enroute : List (List Str)
  flight_plan_name : List (List Str)
  flight_plan_lat : List (List ℚ)
  flight_plan_long : List (List ℚ)
  flight_plan_target_alt : List (List ℚ)
  flight_plan_target_speed : List (List ℚ)
  procedure_speed : List ℚ
  speed_mode : List ℕ
  auto_throttle_mode : List ℕ
  vertical_mode : List ℕ
  lateral_mode : List ℕ
  expedite_descent : List Bool
  departure_airport : List Str
  departure_runway : List Str
  sid : List Str
  arrival_airport : List Str
  arrival_runway : List Str
  star : List Str
  approach : List Str
  cruise_alt : List ℚ
  flight_plan_updated : List Bool
  holding : List Bool
  holding_round : List ℚ
  holding_info : List (Option (Str × ℚ × ℚ))
  deriving DecidableEq

/-- The freshly constructed `Autopilot` (autopilot.py `__init__`): every
parallel array empty. -/
def apEmpty : AP where
  alt := []
  heading := []
  track_angle := []
  ap_rate_of_turn := []
  cas := []
  mach := []
  vs := []
  fpa := []
  lat := []
  long := []
  lat_next := []
  long_next := []
  lat_prev := []
  long_prev := []
  hv_next_wp := []
  dist := []
  flight_plan_index := []
  flight_plan_enroute := []
  flight_plan_name := []
  flight_plan_lat := []
  flight_plan_long := []
  flight_plan_target_alt := []
  flight_plan_target_speed := []
  procedure_speed := []
  speed_mode := []
  auto_throttle_mode := []
  vertical_mode := []
  lateral_mode := []
  expedite_descent := []
  departure_airport := []
  departure_runway := []
  sid := []
  arrival_airport := []
  arrival_runway := []
  star := []
  approach := []
  cruise_alt := []
  flight_plan_updated := []
  holding := []
  holding_round := []
  holding_info := []

/-- Read slot `i` of the arrays touched by `set_flight_plan` into a
single-aircraft `APState` view (defaults are irrelevant for in-range slots). -/
def projAt (st : AP) (i : ℕ) : APState where
  lat := st.lat.getD i 0
  long := st.long.getD i 0
  heading := st.heading.getD i 0
  dist := st.dist.getD i 0
  flight_plan_index := st.flight_plan_index.getD i 0
  flight_plan_enroute := st.flight_plan_enroute.getD i []
  flight_plan_name := st.flight_plan_name.getD i []
  flight_plan_lat := st.flight_plan_lat.getD i []
  flight_plan_long := st.flight_plan_long.getD i []
  flight_plan_target_alt := st.flight_plan_target_alt.getD i []
  flight_plan_target_speed := st.flight_plan_target_speed.getD i []
  hv_next_wp := st.hv_next_wp.getD i false
  lateral_mode := st.lateral_mode.getD i 0
  auto_throttle_mode := st.auto_throttle_mode.getD i 0
  flight_plan_updated := st.flight_plan_updated.getD i false
  departure_airport := st.departure_airport.getD i []
  departure_runway := st.departure_runway.getD i []
  sid := st.sid.getD i []
  arrival_airport := st.arrival_airport.getD i []
  arrival_runway := st.arrival_runway.getD i []
  star := st.star.getD i []
  approach := st.approach.getD i []
  cruise_alt := st.cruise_alt.getD i 0
  holding_round := st.holding_round.getD i 0
  holding_info := st.holding_info.getD i none

/-- Write a single-aircraft `APState` view back into slot `i` of the parallel
arrays (the inverse of `projAt` on the fields `set_flight_plan` touches). -/
def writeAt (st : AP) (i : ℕ) (s : APState) : AP :=
  { st with
    lat := st.lat.set i s.lat
    long := st.long.set i s.long
    heading := st.heading.set i s.heading
    dist := st.dist.set i s.dist
    flight_plan_index := st.flight_plan_index.set i s.flight_plan_index
    flight_plan_enroute := st.flight_plan_enroute.set i s.flight_plan_enroute
    flight_plan_name := st.flight_plan_name.set i s.flight_plan_name
    flight_plan_lat := st.flight_plan_lat.set i s.flight_plan_lat
    flight_plan_long := st.flight_plan_long.set i s.flight_plan_long
    flight_plan_target_alt := st.flight_plan_target_alt.set i s.flight_plan_target_alt
    flight_plan_target_speed := st.flight_plan_target_speed.set i s.flight_plan_target_speed
    hv_next_wp := st.hv_next_wp.set i s.hv_next_wp
    lateral_mode := st.lateral_mode.set i s.lateral_mode
    auto_throttle_mode := st.auto_throttle_mode.set i s.auto_throttle_mode
    flight_plan_updated := st.flight_plan_updated.set i s.flight_plan_updated
    departure_airport := st.departure_airport.set i s.departure_airport
    departure_runway := st.departure_runway.set i s.departure_runway
    sid := st.sid.set i s.sid
    arrival_airport := st.arrival_airport.set i s.arrival_airport
    arrival_runway := st.arrival_runway.set i s.arrival_runway
    star := st.star.set i s.star
    approach := st.approach.set i s.approach
    cruise_alt := st.cruise_alt.set i s.cruise_alt
    holding_round := st.holding_round.set i s.holding_round
    holding_info := st.holding_info.set i s.holding_info }

/-- `Autopilot.set_flight_plan` applied at slot `i` of the parallel arrays. -/
def set_flight_plan_at (nav : Nav) (st : AP) (i : ℕ)
    (dep_a dep_r sid_ arr_a arr_r star_ appr : Str)
    (fp : List Str) (fpIdx : ℕ) (cruise : ℚ) : Option AP :=
  (set_flight_plan nav (projAt st i) dep_a dep_r sid_ arr_a arr_r star_ appr
      fp fpIdx cruise).map (writeAt st i)

/-- `Autopilot.add_aircraft` (autopilot.py lines 113-179): append one entry to
every parallel array, then run `set_flight_plan` on the new slot (the Python
call passes index −1, i.e. the last slot). -/
def add_aircraft (nav : Nav) (st : AP) (lat long alt heading cas : ℚ)
    (dep_a dep_r sid_ arr_a arr_r star_ appr : Str)
    (fp : List Str) (fpIdx : ℕ) (cruise : ℚ) : Option AP :=
  let st1 : AP :=
    { alt := st.alt ++ [alt]
      heading := st.heading ++ [heading]
      track_angle := st.track_angle ++ [heading]
      ap_rate_of_turn := st.ap_rate_of_turn ++ [0]
      cas := st.cas ++ [cas]
      mach := st.mach ++ [0]
      vs := st.vs ++ [0]
      fpa := st.fpa ++ [0]
      lat := st.lat ++ [lat]
      long := st.long ++ [long]
      lat_next := st.lat_next ++ [0]
      long_next := st.long_next ++ [0]
      lat_prev := st.lat_prev ++ [0]
      long_prev := st.long_prev ++ [0]
      hv_next_wp := st.hv_next_wp ++ [false]
      dist := st.dist ++ [0]
      flight_plan_index := st.flight_plan_index ++ [0]
      flight_plan_enroute := st.flight_plan_enroute ++ [[]]
      flight_plan_name := st.flight_plan_name ++ [[]]
      flight_plan_lat := st.flight_plan_lat ++ [[]]
      flight_plan_long := st.flight_plan_long ++ [[]]
      flight_plan_target_alt := st.flight_plan_target_alt ++ [[]]
      flight_plan_target_speed := st.flight_plan_target_speed ++ [[]]
      procedure_speed := st.procedure_speed ++ [0]
      speed_mode := st.speed_mode ++ [0]
      auto_throttle_mode := st.auto_throttle_mode ++ [THROTTLE_SPEED]
      vertical_mode := st.vertical_mode ++ [0]
      lateral_mode := st.lateral_mode ++ [LATERAL_HEADING]
      expedite_descent := st.expedite_descent ++ [false]
      departure_airport := st.departure_airport ++ [dep_a]
      departure_runway := st.departure_runway ++ [dep_r]
      sid := st.sid ++ [sid_]
      arrival_airport := st.arrival_airport ++ [arr_a]
      arrival_runway := st.arrival_runway ++ [arr_r]
      star := st.star ++ [star_]
      approach := st.approach ++ [appr]
      cruise_alt := st.cruise_alt ++ [cruise]
      flight_plan_updated := st.flight_plan_updated ++ [true]
      holding := st.holding ++ [false]
      holding_round := st.holding_round ++ [0]
      holding_info := st.holding_info ++ [none] }
  set_flight_plan_at nav st1 (st1.flight_plan_name.length - 1)
    dep_a dep_r sid_ arr_a arr_r star_ appr fp fpIdx cruise

/-- `Autopilot.del_aircraft` (autopilot.py lines 355-404): delete the entry at
`index` from each parallel array.  The Python body has no
`del self.cruise_alt[index]` statement, so the `cruise_alt` list is left
untouched.  `none` models the `IndexError`/`np.delete` failure on an
out-of-range index (the model collapses the per-array failures into one
pre-check). -/
def del_aircraft (st : AP) (index : ℕ) : Option AP :=
  if index < st.alt.length then
    some { alt := st.alt.eraseIdx index
           heading := st.heading.eraseIdx index
           track_angle := st.track_angle.eraseIdx index
           ap_rate_of_turn := st.ap_rate_of_turn.eraseIdx index
           cas := st.cas.eraseIdx index
           mach := st.mach.eraseIdx index
           vs := st.vs.eraseIdx index
           fpa := st.fpa.eraseIdx index
           lat := st.lat.eraseIdx index
           long := st.long.eraseIdx index
           lat_next := st.lat_next.eraseIdx index
           long_next := st.long_next.eraseIdx index
           lat_prev := st.lat_prev.eraseIdx index
           long_prev := st.long_prev.eraseIdx index
           hv_next_wp := st.hv_next_wp.eraseIdx index
           dist := st.dist.eraseIdx index
           flight_plan_index := st.flight_plan_index.eraseIdx index
           flight_plan_enroute := st.flight_plan_enroute.eraseIdx index
           flight_plan_name := st.flight_plan_name.eraseIdx index
           flight_plan_lat := st.flight_plan_lat.eraseIdx index
           flight_plan_long := st.flight_plan_long.eraseIdx index
           flight_plan_target_alt := st.flight_plan_target_alt.eraseIdx index
           flight_plan_target_speed := st.flight_plan_target_speed.eraseIdx index
           procedure_speed := st.procedure_speed.eraseIdx index
           speed_mode := st.speed_mode.eraseIdx index
           auto_throttle_mode := st.auto_throttle_mode.eraseIdx index
           vertical_mode := st.vertical_mode.eraseIdx index
           lateral_mode := st.lateral_mode.eraseIdx index
           expedite_descent := st.expedite_descent.eraseIdx index
           departure_airport := st.departure_airport.eraseIdx index
           departure_runway := st.departure_runway.eraseIdx index
           sid := st.sid.eraseIdx index
           arrival_airport := st.arrival_airport.eraseIdx index
           arrival_runway := st.arrival_runway.eraseIdx index
           star := st.star.eraseIdx index
           approach := st.approach.eraseIdx index
           cruise_alt := st.cruise_alt
           flight_plan_updated := st.flight_plan_updated.eraseIdx index
           holding := st.holding.eraseIdx index
           holding_round := st.holding_round.eraseIdx index
           holding_info := st.holding_info.eraseIdx index }
  else none

/-- Python indexing `l[i]` with negative-index wrap-around; `none` models a
raised `IndexError`. -/
def pyGetZ (l : List α) (i : ℤ) : Option α :=
  if 0 ≤ i then l.get? i.toNat
  else if (-i).toNat ≤ l.length then l.get? (l.length - (-i).toNat) else none

/-- Python `list.index(a)`: position of the first occurrence, `none` models the
raised `ValueError` when absent. -/
def idxOf? [DecidableEq α] : List α → α → Option ℕ
  | [], _ => none
  | h :: t, a => if h = a then some 0 else (idxOf? t a).map (· + 1)

/-- Modelled from the spec: `Unit.kts2mps` over the reals (spec section 4.2). -/
noncomputable def kts2mpsR (x : ℝ) : ℝ := x * 1852 / 3600

/-- Modelled from the spec: `Unit.mps2kts` over the reals (spec section 4.2). -/
noncomputable def mps2ktsR (x : ℝ) : ℝ := x * 3600 / 1852

/-- Modelled from the spec: `Unit.nm2m`, nautical miles to metres
(spec section 4.2). -/
noncomputable def nm2mR (x : ℝ) : ℝ := x * 1852

/-- Python `%` / `np.mod` (floored modulo) over the reals. -/
noncomputable def pymodR (a b : ℝ) : ℝ := a - b * ⌊a / b⌋

/-- `np.deg2rad`. -/
noncomputable def deg2radR (x : ℝ) : ℝ := x * Real.pi / 180

/-- Geodesy callbacks used by `Autopilot.update`
(`airtrafficsim.utils.calculation.Cal` is not among the given sources):
great-circle distance (km), great-circle initial bearing, signed shortest
angle difference and signed cross-track deviation (m). -/
structure CalFns where
  great_circle_dist : ℝ → ℝ → ℝ → ℝ → ℝ
  great_circle_bearing : ℝ → ℝ → ℝ → ℝ → ℝ
  angle_diff : ℝ → ℝ → ℝ
  dist_off_path : ℝ → ℝ → ℝ → ℝ → ℝ → ℝ → ℝ

/-- Performance-model callbacks used by `Autopilot.update` (the BADA
performance module is not among the given sources). -/
structure PerfFns where
  get_procedure_speed : ℝ → ℝ → ℕ → ℝ
  get_bank_angles : ℕ → ℝ
  cal_turn_radius : ℝ → ℝ → ℝ
  cas_to_tas : ℝ → ℝ → ℝ → ℝ
  tas_to_cas : ℝ → ℝ → ℝ → ℝ
  tas_to_mach : ℝ → ℝ → ℝ
  mach_to_tas : ℝ → ℝ → ℝ

/-- Weather values read by `Autopilot.update` for one aircraft. -/
structure WeatherIn where
  p : ℝ
  rho : ℝ
  T : ℝ
  wind_speed : ℝ
  wind_direction : ℝ

/-- The traffic-store values `Autopilot.update` reads for one aircraft.  The
update never writes these (its only write to traffic, `vertical_mode`, is the
second component of the result of `update`). -/
structure TrafficIn where
  lat : ℝ
  long : ℝ
  alt : ℝ
  heading : ℝ
  cas : ℝ
  mach : ℝ
  tas : ℝ
  trans_alt : ℝ
  configuration : ℕ
  max_cas : ℝ
  max_mach : ℝ
  speed_mode : ℕ
  weather : WeatherIn

/-- One entry of the `holding_info` tuple: the fix name (index 0), the inbound
course (index 4) and the leg length in nautical miles (index 6). -/
structure HoldingInfoR where
  fix : Str
  course : ℝ
  leg_dist : ℝ

/-- Per-aircraft autopilot state for the per-tick update, over the reals:
exactly the `Autopilot` array entries `update` reads or writes for one slot. -/
structure UpdState where
  alt : ℝ
  heading : ℝ
  track_angle : ℝ
  cas : ℝ
  mach : ℝ
  lat : ℝ
  long : ℝ
  lat_next : ℝ
  long_next : ℝ
  lat_prev : ℝ
  long_prev : ℝ
  hv_next_wp : Bool
  dist : ℝ
  flight_plan_index : ℤ
  flight_plan_name : List Str
  flight_plan_lat : List ℝ
  flight_plan_long : List ℝ
  flight_plan_target_alt : List ℝ
  procedure_speed : ℝ
  speed_mode : ℕ
  auto_throttle_mode : ℕ
  lateral_mode : ℕ
  flight_plan_updated : Bool
  holding : Bool
  holding_round : ℝ
  holding_info : Option HoldingInfoR

/-- Leg-tracking step of `Autopilot.update` (autopilot.py lines 417-450): while
the leg pointer is within the plan, load the previous/current target positions
(`[val-1]` wraps Python-style for `val = 0`), populate the next target and the
has-next-waypoint flag, and adopt the current leg's target altitude when the
altitude list has more than one entry; a pointer past the plan forces lateral
mode HEADING. -/
def legTrack (s : UpdState) : Option UpdState :=
  if s.flight_plan_index < (s.flight_plan_name.length : ℤ) then do
    let val := s.flight_plan_index
    let latp ← pyGetZ s.flight_plan_lat (val - 1)
    let longp ← pyGetZ s.flight_plan_long (val - 1)
    let la ← pyGetZ s.flight_plan_lat val
    let lo ← pyGetZ s.flight_plan_long val
    let s := { s with lat_prev := latp, long_prev := longp, lat := la, long := lo }
    let s ←
      if val = (s.flight_plan_name.length : ℤ) - 1 then
        pure { s with hv_next_wp := false }
      else do
        let lan ← pyGetZ s.flight_plan_lat (val + 1)
        let lon ← pyGetZ s.flight_plan_long (val + 1)
        pure { s with lat_next := lan, long_next := lon, hv_next_wp := true }
    if 1 < s.flight_plan_target_alt.length then do
      let a ← pyGetZ s.flight_plan_target_alt val
      pure { s with alt := a }
    else pure s
  else pure { s with lateral_mode := LATERAL_HEADING }

/-- Speed-target step of `Autopilot.update` (autopilot.py lines 456-473):
procedure speed adopted as CAS (value at least 5) or Mach (below 5) under
auto-throttle, clamped to the maxima, the passive representation recomputed
from the authoritative one through the performance conversions, and the
autopilot speed-mode flag chosen by comparison with the current speed. -/
noncomputable def speedStep (perf : PerfFns) (tr : TrafficIn) (s : UpdState) :
    UpdState :=
  let ps := perf.get_procedure_speed tr.alt tr.trans_alt tr.configuration
  let cas1 := if s.auto_throttle_mode = THROTTLE_AUTO ∧ ps ≥ 5 then ps else s.cas
  let cas2 := min cas1 tr.max_cas
  let mach1 := if s.auto_throttle_mode = THROTTLE_AUTO ∧ ps < 5 then ps else s.mach
  let mach2 := min mach1 tr.max_mach
  let mach3 := if tr.speed_mode = SPEEDMODE_CAS then
      perf.tas_to_mach (perf.cas_to_tas (kts2mpsR cas2) tr.weather.p tr.weather.rho)
        tr.weather.T
    else mach2
  let cas3 := if tr.speed_mode = SPEEDMODE_MACH then
      mps2ktsR (perf.tas_to_cas (perf.mach_to_tas mach3 tr.weather.T) tr.weather.p
        tr.weather.rho)
    else cas2
  let smode := if tr.speed_mode = SPEEDMODE_CAS then
      (if cas3 < tr.cas then SPEED_DECELERATE
       else if cas3 = tr.cas then SPEED_CONSTANT_CAS else SPEED_ACCELERATE)
    else
      (if mach3 < tr.mach then SPEED_DECELERATE
       else if mach3 = tr.mach then SPEED_CONSTANT_MACH else SPEED_ACCELERATE)
  { s with procedure_speed := ps, cas := cas3, mach := mach3, speed_mode := smode }

/-- Vertical-mode selection of `Autopilot.update` (autopilot.py lines 476-485),
written into `traffic.vertical_mode`. -/
noncomputable def verticalModeOf (tr : TrafficIn) (s : UpdState) : ℕ :=
  if s.alt > tr.alt then VERTICAL_CLIMB
  else if s.alt = tr.alt then VERTICAL_LEVEL else VERTICAL_DESCENT

/-- The freshly computed great-circle distance to the current target
(autopilot.py line 489), taken after the leg-tracking step has loaded the
current target position. -/
def freshDist (cal : CalFns) (tr : TrafficIn) (s : UpdState) : ℝ :=
  cal.great_circle_dist tr.lat tr.long s.lat s.long

/-- Bearing toward the next waypoint, or the current track angle when there is
none (autopilot.py line 500). -/
def nextTrackAngle (cal : CalFns) (s : UpdState) : ℝ :=
  if s.hv_next_wp then cal.great_circle_bearing s.lat s.long s.lat_next s.long_next
  else s.track_angle

/-- Cross-track heading-bias correction (autopilot.py line 507): ±20 degrees
when the deviation magnitude exceeds 200 m, otherwise the exponentially damped
value. -/
noncomputable def correction (cross_track : ℝ) : ℝ :=
  if |cross_track| > 200 then Real.sign cross_track * 20
  else 20 * (1 - Real.exp (-cross_track / 40))

/-- Waypoint-advance condition (autopilot.py line 521): LNAV, the fresh
distance exceeds the cached one, and the aircraft heading is within 1 degree
of the next-leg bearing.  `s` is the state after the flag-guarded cache
overwrite, so `s.dist` is the baseline the comparison uses. -/
def advCond (cal : CalFns) (tr : TrafficIn) (s : UpdState) (dist : ℝ) : Prop :=
  s.lateral_mode = LATERAL_LNAV ∧ dist > s.dist ∧
    |cal.angle_diff tr.heading (nextTrackAngle cal s)| < 1

noncomputable instance (cal : CalFns) (tr : TrafficIn) (s : UpdState) (dist : ℝ) :
    Decidable (advCond cal tr s dist) := by
  unfold advCond; infer_instance

/-- Holding state machine of `Autopilot.update` for one aircraft (autopilot.py
lines 533-551).  `dist` is the fresh distance of line 489.  A missing fix in
the plan (`list.index`) or an empty `holding_info` read in the active-holding
branch raises, modelled as `none`. -/
noncomputable def holdingStep (cal : CalFns) (dist : ℝ) (s : UpdState) :
    Option UpdState :=
  if s.holding = false then
    match s.holding_info with
    | none => some s
    | some hi =>
      if |cal.angle_diff s.heading hi.course| < 90 then
        match idxOf? s.flight_plan_name hi.fix with
        | none => none
        | some k =>
          if (k : ℤ) < s.flight_plan_index then
            some { s with heading := pymodR (hi.course + 180) 360,
                          holding_round := s.holding_round - 1,
                          flight_plan_index := s.flight_plan_index - 1,
                          lateral_mode := LATERAL_HEADING, holding := true }
          else some s
      else some s
  else
    match s.holding_info with
    | none => none
    | some hi =>
      let s1 := if |cal.angle_diff s.heading hi.course| < 90 ∧ dist < 1 then
          { s with heading := pymodR (hi.course + 180) 360,
                   holding_round := s.holding_round - 1 }
        else s
      if |cal.angle_diff s1.heading (hi.course + 180)| < 90 ∧
         dist > nm2mR hi.leg_dist / 1000 then
        let s2 := { s1 with heading := hi.course }
        if s1.holding_round ≤ 0 then
          some { s2 with lateral_mode := LATERAL_LNAV, holding := false,
                         holding_info := none }
        else some s2
      else some s1

/-- `Autopilot.update` for one aircraft slot (autopilot.py lines 407-551), in
source order: leg tracking, speed targets, vertical mode, the fresh distance
and the flag-guarded cache overwrite, turn anticipation, cross-track
correction, track/heading selection, waypoint advance (which rewrites the
cached distance with the fresh distance, or with the distance to the next
target on an advance), then the holding state machine.  The second result
component is the value written to `traffic.vertical_mode`. -/
noncomputable def update (cal : CalFns) (perf : PerfFns) (tr : TrafficIn)
    (s : UpdState) : Option (UpdState × ℕ) := do
  let s1 ← legTrack s
  let s2 := speedStep perf tr s1
  let vm := verticalModeOf tr s2
  let dist := freshDist cal tr s2
  let s3 := { s2 with
    dist := if s2.flight_plan_updated then dist else s2.dist,
    flight_plan_updated := if s2.flight_plan_updated then false
                           else s2.flight_plan_updated }
  let nta := nextTrackAngle cal s3
  let cta := cal.great_circle_bearing tr.lat tr.long s3.lat s3.long
  let turn_radius := perf.cal_turn_radius (perf.get_bank_angles tr.configuration)
    (kts2mpsR tr.tas) / 1000
  let turn_dist := turn_radius *
    Real.tan (deg2radR (|cal.angle_diff nta cta| / 2)) * 0.8
  let cross := cal.dist_off_path s3.lat_prev s3.long_prev s3.lat s3.long
    tr.lat tr.long
  let cta2 := cta + correction cross
  let lnav_track :=
    if dist < turn_dist then (if s3.hv_next_wp then nta else s3.track_angle)
    else (if dist < 1 then s3.track_angle else cta2)
  let s4 := { s3 with
    track_angle := if s3.lateral_mode = LATERAL_HEADING then 0 else lnav_track }
  let s5 := { s4 with
    heading := if s4.lateral_mode = LATERAL_HEADING then s4.heading
      else s4.track_angle + Real.arcsin (tr.weather.wind_speed / tr.tas *
        Real.sin (s4.track_angle - tr.weather.wind_direction)) }
  let s6 := { s5 with
    flight_plan_index := if advCond cal tr s3 dist then s5.flight_plan_index + 1
                         else s5.flight_plan_index,
    dist := if advCond cal tr s3 dist then
        cal.great_circle_dist tr.lat tr.long s5.lat_next s5.long_next
      else dist }
  let s7 ← holdingStep cal dist s6
  pure (s7, vm)

/-! Concrete instantiations used to evaluate the model on explicit inputs. -/

/-- A concrete navigation database: every runway threshold at (10, 20) with
elevation 100, every procedure empty, waypoints resolved one degree past the
reference. -/
def navTriv : Nav where
  runwayCoord := fun _ _ => (10, 20, 100)
  getProc := fun _ _ _ _ _ => ⟨[], [], []⟩
  wpCoord := fun _ la lo => (la, lo)

/-- A default aircraft-facade state for concrete evaluations. -/
def acDefault : AircraftState where
  vectoring := []
  traffic_lat := 0
  traffic_long := 0
  traffic_cas := 0
  ap := apDefault

/-! ## C1: the synthetic departure leg -/

/-- C1: for every `set_flight_plan` call that completes, leg 0 of the resulting
flight plan is the synthetic departure leg named
"departure_airport departure_runway" (space-separated), positioned at the
departure runway threshold, with target altitude equal to the threshold
elevation and target speed 0. -/
theorem c1_departure_leg (nav : Nav) (s : APState)
    (dep_a dep_r sid_ arr_a arr_r star_ appr : Str) (fp : List Str)
    (fpIdx : ℕ) (cruise : ℚ) (s' : APState)
    (h : set_flight_plan nav s dep_a dep_r sid_ arr_a arr_r star_ appr fp
          fpIdx cruise = some s') :
    s'.flight_plan_name.head? = some (dep_a ++ str " " ++ dep_r) ∧
    s'.flight_plan_lat.head? = some (nav.runwayCoord dep_a (dep_r.drop 2)).1 ∧
    s'.flight_plan_long.head? = some (nav.runwayCoord dep_a (dep_r.drop 2)).2.1 ∧
    s'.flight_plan_target_alt.head? =
      some (nav.runwayCoord dep_a (dep_r.drop 2)).2.2 ∧
    s'.flight_plan_target_speed.head? = some 0 := by
  unfold set_flight_plan at h
  rw [Option.map_eq_some'] at h
  obtain ⟨mid, _, hfin⟩ := h
  subst hfin
  simp [sfpFinalize]

/-- Concrete completed `set_flight_plan` call for the C1 witness. -/
def c1res : APState :=
  (set_flight_plan navTriv apDefault (str "VHHH") (str "RW25L") [] [] [] [] []
    [] 0 (-1)).getD apDefault

/-- Witness: the C1 theorem applied to a concrete completed call. -/
theorem c1_departure_leg_witness :
    set_flight_plan navTriv apDefault (str "VHHH") (str "RW25L") [] [] [] [] []
      [] 0 (-1) = some c1res ∧
    c1res.flight_plan_name.head? = some (str "VHHH" ++ str " " ++ str "RW25L") :=
  ⟨by decide,
   (c1_departure_leg navTriv apDefault (str "VHHH") (str "RW25L") [] [] [] []
     [] [] 0 (-1) c1res (by decide)).1⟩

/-! ## C3: the reciprocal runway identifier -/

/-- The runway identifier string with a two-character prefix, a two-digit
runway number and an optional parallel-runway letter, as `set_flight_plan`
slices it. -/
def mkRunwayId (n : ℕ) (sfx : Option Char) : Str :=
  str "RW" ++ zfill2 (Nat.toDigits 10 n) ++ sfx.elim [] (fun c => [c])

/-- The reciprocal runway number computed at autopilot.py line 316. -/
def oppNum (n : ℕ) : ℕ := ((n * 10 + 180) % 360) / 10

/-- The parallel-runway letter swap of autopilot.py lines 317-323. -/
def swapSuffix : Option Char → Option Char
  | some 'L' => some 'R'
  | some 'R' => some 'L'
  | some 'C' => some 'C'
  | _ => none

/-- C3: for every runway number 1-36 and suffix in none/L/R/C, the computed
opposite-runway identifier is the reciprocal number with the suffix swapped
(L and R exchanged, C kept, none kept), and the reciprocal number's heading
differs from the input runway's heading by exactly 180 degrees. -/
theorem c3_opposite_runway :
    ∀ n ∈ List.range 37, 1 ≤ n →
    ∀ sfx ∈ [Option.none, some 'L', some 'R', some 'C'],
      oppRunway (mkRunwayId n sfx) =
        some (zfill2 (Nat.toDigits 10 (oppNum n)) ++
          (swapSuffix sfx).elim [] (fun c => [c])) ∧
      (oppNum n * 10 + 360 - (n * 10) % 360) % 360 = 180 := by decide

/-- Witness: the C3 theorem applied to runway 09L. -/
theorem c3_opposite_runway_witness :
    9 ∈ List.range 37 ∧ 1 ≤ 9 ∧
    some 'L' ∈ [Option.none, some 'L', some 'R', some 'C'] ∧
    oppRunway (mkRunwayId 9 (some 'L')) =
      some (zfill2 (Nat.toDigits 10 (oppNum 9)) ++
        (swapSuffix (some 'L')).elim [] (fun c => [c])) :=
  ⟨by decide, by decide, by decide,
   (c3_opposite_runway 9 (by decide) (by decide) (some 'L') (by decide)).1⟩

/-! ## C9: set_direct ignores its waypoint argument -/

/-- C9: `Aircraft.set_direct` changes only the autopilot lateral mode (to
LNAV); the waypoint argument is never read, so any two waypoint arguments have
identical effect and every other field of the state is unchanged. -/
theorem c9_set_direct_frame (w1 w2 : Str) (ac : AircraftState) :
    set_direct w1 ac =
      { ac with ap := { ac.ap with lateral_mode := LATERAL_LNAV } } ∧
    set_direct w1 ac = set_direct w2 ac :=
  ⟨rfl, rfl⟩

/-! ## C2: altitude back-fill -/

lemma propAux_length (l : List ℚ) : (propAux l).1.length = l.length := by
  induction l with
  | nil => rfl
  | cons v rest ih => simp [propAux, ih]

lemma propAux_not_mem_neg_one (l : List ℚ) :
    (-1 : ℚ) ∉ (propAux l).1 ∧ (propAux l).2 ≠ -1 := by
  induction l with
  | nil => exact ⟨List.not_mem_nil _, by norm_num [propAux]⟩
  | cons v rest ih =>
    obtain ⟨ih1, ih2⟩ := ih
    have hw : (if v = -1 then (propAux rest).2 else v) ≠ -1 := by
      split
      · exact ih2
      · rename_i hv; exact hv
    refine ⟨?_, by simpa only [propAux] using hw⟩
    simp only [propAux, List.mem_cons, not_or]
    exact ⟨fun hc => hw hc.symm, ih1⟩

lemma propAux_getLast (l : List ℚ) (v : ℚ) (hv : v ≠ -1) :
    (propAux (l ++ [v])).1.getLast? = some v := by
  induction l with
  | nil => simp [propAux, hv]
  | cons h t ih =>
    obtain ⟨x, xs, hxx⟩ : ∃ x xs, (propAux (t ++ [v])).1 = x :: xs := by
      cases hc : (propAux (t ++ [v])).1 with
      | nil =>
        have hlen := propAux_length (t ++ [v])
        rw [hc] at hlen
        simp at hlen
      | cons x xs => exact ⟨x, xs, rfl⟩
    simp only [List.cons_append, propAux, List.append_eq]
    rw [hxx, List.getLast?_cons_cons, ← hxx]
    exact ih

lemma setLast_length (l : List ℚ) (hl : l ≠ []) (v : ℚ) :
    (setLast l v).length = l.length := by
  unfold setLast
  rw [List.length_append, List.length_dropLast]
  have : 1 ≤ l.length := List.length_pos.mpr hl
  simp
  omega

lemma backfillAlt_length (l : List ℚ) : (backfillAlt l).length = l.length := by
  unfold backfillAlt
  split
  · rename_i hlen
    have hl : l ≠ [] := by
      intro hc; rw [hc] at hlen; simp at hlen
    rw [propAux_length, setLast_length l hl]
  · rfl

/-- The back-filled list ends in the forced 0 and contains no sentinel, as soon
as it has more than one entry. -/
lemma backfillAlt_spec (l : List ℚ) (hlen : 1 < l.length) :
    (backfillAlt l).getLast? = some 0 ∧ (-1 : ℚ) ∉ backfillAlt l := by
  have hl : l ≠ [] := by
    intro hc; rw [hc] at hlen; simp at hlen
  unfold backfillAlt
  rw [if_pos hlen]
  constructor
  · unfold setLast
    exact propAux_getLast _ 0 (by norm_num)
  · exact (propAux_not_mem_neg_one _).1

/-- Concrete `set_flight_plan` call for the C2 counterexample: one enroute
waypoint, no cruise altitude, no arrival runway — the assembled altitude list
has a single entry, the back-fill guard skips, and the final altitude list is
just the departure threshold elevation. -/
def c2res : APState :=
  (set_flight_plan navTriv apDefault (str "VHHH") (str "RW25L") [] [] [] [] []
    [str "AA"] 0 (-1)).getD apDefault

/-- Counterexample to C2 as stated: a completed `set_flight_plan` call whose
resulting last target altitude is not 0 (it is the departure threshold
elevation 100), because the back-fill at autopilot.py lines 334-338 runs only
when the altitude list has more than one entry; the name list moreover has
two legs while the altitude list has one entry. -/
theorem c2_counterexample :
    set_flight_plan navTriv apDefault (str "VHHH") (str "RW25L") [] [] [] [] []
      [str "AA"] 0 (-1) = some c2res ∧
    c2res.flight_plan_target_alt.getLast? ≠ some 0 ∧
    c2res.flight_plan_name.length = 2 ∧
    c2res.flight_plan_target_alt.length = 1 :=
  ⟨by decide, by decide, by decide, by decide⟩

/-- C2 (amended): after a completed `set_flight_plan` call, whenever the
assembled target-altitude list (the entries after the inserted departure leg)
has more than one entry, its last entry is 0 and no entry retains the
sentinel −1; with at most one assembled entry the back-fill is skipped. -/
theorem c2_backfill (nav : Nav) (s : APState)
    (dep_a dep_r sid_ arr_a arr_r star_ appr : Str) (fp : List Str)
    (fpIdx : ℕ) (cruise : ℚ) (s' : APState) (d : ℚ) (rest : List ℚ)
    (h : set_flight_plan nav s dep_a dep_r sid_ arr_a arr_r star_ appr fp
          fpIdx cruise = some s')
    (halt : s'.flight_plan_target_alt = d :: rest)
    (hlen : 1 < rest.length) :
    rest.getLast? = some 0 ∧ (-1 : ℚ) ∉ rest := by
  unfold set_flight_plan at h
  rw [Option.map_eq_some'] at h
  obtain ⟨mid, _, hfin⟩ := h
  subst hfin
  simp only [sfpFinalize] at halt
  injection halt with h1 h2
  subst h2
  have hl : 1 < mid.flight_plan_target_alt.length := by
    rwa [backfillAlt_length] at hlen
  exact backfillAlt_spec _ hl

/-- Witness: the C2 amended theorem applied to a concrete call with two
enroute legs at cruise altitude 300 and the sentinel resolution visible. -/
def c2wres : APState :=
  (set_flight_plan navTriv apDefault (str "VHHH") (str "RW25L") [] [] [] [] []
    [str "AA", str "BB"] 0 300).getD apDefault

/-- Witness for the amended C2 theorem on a concrete completed call. -/
theorem c2_backfill_witness :
    set_flight_plan navTriv apDefault (str "VHHH") (str "RW25L") [] [] [] [] []
      [str "AA", str "BB"] 0 300 = some c2wres ∧
    c2wres.flight_plan_target_alt = 100 :: [300, 0] ∧
    1 < ([300, 0] : List ℚ).length ∧
    (([300, 0] : List ℚ).getLast? = some 0 ∧ (-1 : ℚ) ∉ ([300, 0] : List ℚ)) :=
  ⟨by decide, by decide, by decide,
   c2_backfill navTriv apDefault (str "VHHH") (str "RW25L") [] [] [] [] []
     [str "AA", str "BB"] 0 300 c2wres 100 [300, 0] (by decide) (by decide)
     (by decide)⟩

/-! ## C7 and C6: radar vectoring -/

lemma get?_set_self (l : List α) (i : ℕ) (a : α) (h : i < l.length) :
    (l.set i a).get? i = some a := by
  induction l generalizing i with
  | nil => simp at h
  | cons x xs ih =>
    cases i with
    | zero => rfl
    | succ n => simpa using ih n (by simpa using h)

lemma count_pyInsert [BEq α] [LawfulBEq α] (i : ℕ) (a : α) (l : List α) :
    (pyInsert i a l).count a = l.count a + 1 := by
  unfold pyInsert
  rw [List.count_append, List.count_cons_self]
  conv_rhs => rw [← List.take_append_drop i l, List.count_append]
  omega

/-- C7: a `set_vectoring` call is idempotent — once a call has gone through
(whether it took effect or was a no-op), repeating the identical command
leaves the state exactly as it is, and an effective call inserts exactly one
"VECT" leg. -/
theorem c7_vectoring_single_shot (vc : VectCal) (t v2 : ℚ) (fix : Str)
    (ac ac' : AircraftState)
    (h : set_vectoring vc t v2 fix ac = some ac') :
    set_vectoring vc t v2 fix ac' = some ac' ∧
    (ac.vectoring ≠ fix → get_next_wp ac = some fix →
      ac'.ap.flight_plan_name.count (str "VECT") =
        ac.ap.flight_plan_name.count (str "VECT") + 1) := by
  unfold set_vectoring at h
  by_cases hg : ac.vectoring ≠ fix ∧ get_next_wp ac = some fix
  · rw [if_pos hg] at h
    dsimp only at h
    cases halt : ac.ap.flight_plan_target_alt.get? ac.ap.flight_plan_index with
    | none =>
      rw [halt] at h
      exact absurd h (by simp)
    | some a =>
      rw [halt] at h
      simp only [Option.bind_eq_bind, Option.some_bind] at h
      by_cases hlen :
          ac.ap.flight_plan_index < ac.ap.flight_plan_target_speed.length
      · rw [if_pos hlen] at h
        rw [get?_set_self _ _ _ hlen] at h
        simp only [Option.bind_eq_bind, Option.some_bind, Option.pure_def, Option.some.injEq] at h
        subst h
        constructor
        · unfold set_vectoring
          rw [if_neg]
          intro hcon
          exact hcon.1 rfl
        · intro _ _
          exact count_pyInsert ac.ap.flight_plan_index (str "VECT")
            ac.ap.flight_plan_name
      · rw [if_neg hlen] at h
        exact absurd h (by simp)
  · rw [if_neg hg] at h
    simp only [Option.some.injEq] at h
    subst h
    refine ⟨?_, fun h1 h2 => absurd ⟨h1, h2⟩ hg⟩
    unfold set_vectoring
    rw [if_neg hg]

/-- Trivial geometry callbacks for concrete vectoring evaluations: the virtual
waypoint lands on the current traffic position. -/
def vcTriv : VectCal where
  dest := fun la lo _ _ => (la, lo)
  rad2deg := fun x => x
  arccos := fun x => x

/-- Concrete aircraft about to be vectored toward fix "FIX": the current leg
(index 1) has target speed 250 and target altitude 2000. -/
def ac7 : AircraftState where
  vectoring := []
  traffic_lat := 0
  traffic_long := 0
  traffic_cas := 200
  ap := { apDefault with
    flight_plan_index := 1
    flight_plan_name := [str "AA", str "FIX", str "BB"]
    flight_plan_lat := [1, 2, 3]
    flight_plan_long := [4, 5, 6]
    flight_plan_target_alt := [1000, 2000, 3000]
    flight_plan_target_speed := [10, 250, 20] }

/-- The state after the concrete effective vectoring call. -/
def ac7' : AircraftState :=
  (set_vectoring vcTriv 100 180 (str "FIX") ac7).getD acDefault

/-- Witness: the C7 theorem applied to a concrete effective call — the repeat
of the command is the identity. -/
theorem c7_vectoring_single_shot_witness :
    set_vectoring vcTriv 100 180 (str "FIX") ac7 = some ac7' ∧
    set_vectoring vcTriv 100 180 (str "FIX") ac7' = some ac7' ∧
    ac7'.ap.flight_plan_name.count (str "VECT") =
      ac7.ap.flight_plan_name.count (str "VECT") + 1 :=
  ⟨rfl,
   (c7_vectoring_single_shot vcTriv 100 180 (str "FIX") ac7 ac7' rfl).1,
   (c7_vectoring_single_shot vcTriv 100 180 (str "FIX") ac7 ac7' rfl).2
     (by decide) (by decide)⟩

/-- Concrete aircraft for the C6 counterexample (same shape as `ac7`). -/
def ac6 : AircraftState where
  vectoring := []
  traffic_lat := 0
  traffic_long := 0
  traffic_cas := 200
  ap := { apDefault with
    flight_plan_index := 1
    flight_plan_name := [str "AA", str "FIX", str "BB"]
    flight_plan_lat := [1, 2, 3]
    flight_plan_long := [4, 5, 6]
    flight_plan_target_alt := [1000, 2000, 3000]
    flight_plan_target_speed := [10, 250, 20] }

/-- The state after the concrete C6 vectoring call with requested speed 180. -/
def ac6' : AircraftState :=
  (set_vectoring vcTriv 100 180 (str "FIX") ac6).getD acDefault

/-- Counterexample to C6 as stated: before the call the current leg (index 1)
has target speed 250; after the call the leg following the inserted "VECT" leg
(index 2, the original current leg) carries the requested vectoring speed 180,
not its pre-existing 250 — aircraft.py line 189 overwrites the current leg's
speed with `v_2` before line 190 copies it into the inserted leg. -/
theorem c6_counterexample :
    set_vectoring vcTriv 100 180 (str "FIX") ac6 = some ac6' ∧
    ac6.ap.flight_plan_target_speed.get? 1 = some 250 ∧
    ac6'.ap.flight_plan_name.get? 1 = some (str "VECT") ∧
    ac6'.ap.flight_plan_target_speed.get? 2 = some 180 ∧
    (180 : ℚ) ≠ 250 :=
  ⟨rfl, by decide, by decide, by decide, by decide⟩

/-- C6 (amended): an effective `set_vectoring` call inserts exactly one new
leg named "VECT" immediately before the current leg, carrying the requested
vectoring speed and the current leg's altitude target; the leg after the
inserted VECT leg has its speed target overwritten with the requested
vectoring speed as well (its pre-existing speed target is lost). -/
theorem c6_vect_insert (vc : VectCal) (t v2 : ℚ) (fix : Str)
    (ac ac' : AircraftState) (a : ℚ)
    (hv : ac.vectoring ≠ fix) (hn : get_next_wp ac = some fix)
    (halt : ac.ap.flight_plan_target_alt.get? ac.ap.flight_plan_index = some a)
    (h : set_vectoring vc t v2 fix ac = some ac') :
    ac'.ap.flight_plan_name =
      pyInsert ac.ap.flight_plan_index (str "VECT") ac.ap.flight_plan_name ∧
    ac'.ap.flight_plan_target_alt =
      pyInsert ac.ap.flight_plan_index a ac.ap.flight_plan_target_alt ∧
    ac'.ap.flight_plan_target_speed =
      pyInsert ac.ap.flight_plan_index v2
        (ac.ap.flight_plan_target_speed.set ac.ap.flight_plan_index v2) ∧
    ac'.vectoring = fix := by
  unfold set_vectoring at h
  rw [if_pos ⟨hv, hn⟩] at h
  dsimp only at h
  rw [halt] at h
  simp only [Option.bind_eq_bind, Option.some_bind] at h
  by_cases hlen : ac.ap.flight_plan_index < ac.ap.flight_plan_target_speed.length
  · rw [if_pos hlen] at h
    rw [get?_set_self _ _ _ hlen] at h
    simp only [Option.bind_eq_bind, Option.some_bind, Option.pure_def, Option.some.injEq] at h
    subst h
    exact ⟨rfl, rfl, rfl, rfl⟩
  · rw [if_neg hlen] at h
    exact absurd h (by simp)

/-- Witness: the amended C6 theorem applied to the concrete call of the
counterexample. -/
theorem c6_vect_insert_witness :
    ac6.vectoring ≠ str "FIX" ∧ get_next_wp ac6 = some (str "FIX") ∧
    ac6.ap.flight_plan_target_alt.get? ac6.ap.flight_plan_index = some 2000 ∧
    set_vectoring vcTriv 100 180 (str "FIX") ac6 = some ac6' ∧
    ac6'.ap.flight_plan_target_speed =
      pyInsert ac6.ap.flight_plan_index 180
        (ac6.ap.flight_plan_target_speed.set ac6.ap.flight_plan_index 180) :=
  ⟨by decide, by decide, by decide, rfl,
   (c6_vect_insert vcTriv 100 180 (str "FIX") ac6 ac6' 2000 (by decide)
     (by decide) (by decide) rfl).2.2.1⟩

/-! ## C8: set_holding on a missing holding definition -/

/-- A navigation holding lookup with no definitions at all. -/
def navHoldNone : Str → Str → Option (Str × ℚ × ℚ) := fun _ _ => none

/-- Concrete aircraft with an existing holding state for the C8 counterexample. -/
def ac8 : AircraftState :=
  { acDefault with
    ap := { apDefault with holding_round := 5,
                           holding_info := some (str "OLD", 90, 5) } }

/-- Counterexample to C8 as stated: with no holding definition in the
navigation database, `set_holding` is not a silent no-op — the NotFound
failure of the lookup propagates to the caller (second component `true`), and
the remaining-rounds counter has already been overwritten (5 became 3),
because aircraft.py line 154 assigns `holding_round` before the line 155
lookup runs. -/
theorem c8_counterexample :
    (set_holding navHoldNone 3 (str "ABC") (str "RC") ac8).2 = true ∧
    (set_holding navHoldNone 3 (str "ABC") (str "RC") ac8).1.ap.holding_round = 3 ∧
    ac8.ap.holding_round = 5 ∧ (3 : ℚ) ≠ 5 :=
  ⟨by decide, by decide, by decide, by decide⟩

/-- C8 (amended): when the navigation database has no holding definition for
the fix/region pair, `set_holding` overwrites the remaining-rounds counter
with the requested value, then the NotFound failure of the lookup propagates
to the caller; the cached holding definition is left unchanged. -/
theorem c8_holding_notfound (navH : Str → Str → Option (Str × ℚ × ℚ))
    (t : ℚ) (fix region : Str) (ac : AircraftState)
    (h : navH fix region = none) :
    set_holding navH t fix region ac =
      ({ ac with ap := { ac.ap with holding_round := t } }, true) := by
  unfold set_holding
  rw [h]

/-- Witness: the amended C8 theorem applied to the concrete lookup. -/
theorem c8_holding_notfound_witness :
    navHoldNone (str "ABC") (str "RC") = none ∧
    set_holding navHoldNone 3 (str "ABC") (str "RC") ac8 =
      ({ ac8 with ap := { ac8.ap with holding_round := 3 } }, true) :=
  ⟨rfl, c8_holding_notfound navHoldNone 3 (str "ABC") (str "RC") ac8 rfl⟩

/-! ## C10: the parallel arrays after add and delete -/

/-- Two `add_aircraft` calls followed by `del_aircraft 0`, on a fresh
`Autopilot` with the concrete navigation database. -/
def c10after : Option AP :=
  (add_aircraft navTriv apEmpty 0 0 0 0 0 (str "AAAA") (str "RW07") [] [] []
      [] [] [] 0 (-1)).bind
    (fun st => add_aircraft navTriv st 0 0 0 0 0 (str "BBBB") (str "RW25") []
      [] [] [] [] [] 0 (-1)) |>.bind
    (fun st => del_aircraft st 0)

/-- The resulting parallel arrays. -/
def c10res : AP := c10after.getD apEmpty

/-- C10 evaluated at the failing input: after adding two aircraft and deleting
slot 0, every parallel array has one remaining entry except `cruise_alt`,
which still has two — `del_aircraft` (autopilot.py lines 355-404) has no
`del self.cruise_alt[index]` statement, so the arrays fall out of alignment,
contradicting the claim that deletion removes exactly one entry from each
parallel array. -/
theorem c10_cruise_alt_not_deleted :
    c10after = some c10res ∧
    c10res.cruise_alt.length = 2 ∧
    c10res.alt.length = 1 ∧
    c10res.flight_plan_name.length = 1 ∧
    c10res.departure_airport.length = 1 ∧
    c10res.holding_info.length = 1 :=
  ⟨by decide, by decide, by decide, by decide, by decide, by decide⟩

/-! ## C5: the cross-track heading bias -/

/-- Counterexample to C5 as stated: at cross-track deviation exactly 200 m
(magnitude ≥ 200), the bias magnitude is not 20 degrees — autopilot.py
line 507 tests `np.abs(cross_track) > 200` strictly, so a deviation of 200
falls into the damped branch and yields 20·(1 − e^(−5)) < 20. -/
theorem c5_counterexample : |(200 : ℝ)| ≥ 200 ∧ |correction 200| ≠ 20 := by
  refine ⟨by norm_num, ?_⟩
  unfold correction
  rw [if_neg (by norm_num)]
  have hlt : Real.exp (-200 / 40) < 1 := by
    rw [Real.exp_lt_one_iff]; norm_num
  have hpos : (0 : ℝ) < Real.exp (-200 / 40) := Real.exp_pos _
  rw [abs_of_pos (by nlinarith)]
  intro hc
  nlinarith

/-- C5 (amended): the heading-bias correction is exactly 0 at zero cross-track
deviation, and whenever the deviation's magnitude strictly exceeds 200 m the
bias has magnitude exactly 20 degrees with sign equal to the deviation's
sign. -/
theorem c5_cross_track_bias :
    correction 0 = 0 ∧
    ∀ x : ℝ, |x| > 200 →
      |correction x| = 20 ∧ Real.sign (correction x) = Real.sign x := by
  constructor
  · unfold correction
    rw [if_neg (by norm_num)]
    norm_num [Real.exp_zero]
  · intro x hx
    have hx0 : x ≠ 0 := by
      intro hc; rw [hc] at hx; norm_num at hx
    unfold correction
    rw [if_pos hx]
    rcases hx0.lt_or_lt with hneg | hpos
    · rw [Real.sign_of_neg hneg]
      refine ⟨by norm_num, ?_⟩
      rw [show ((-1 : ℝ) * 20) = -20 by norm_num,
        Real.sign_of_neg (by norm_num : (-20 : ℝ) < 0)]
    · rw [Real.sign_of_pos hpos]
      refine ⟨by norm_num, ?_⟩
      rw [show ((1 : ℝ) * 20) = 20 by norm_num,
        Real.sign_of_pos (by norm_num : (0 : ℝ) < 20)]

/-- Witness: the amended C5 theorem applied at deviation 250 m. -/
theorem c5_cross_track_bias_witness :
    |(250 : ℝ)| > 200 ∧ |correction 250| = 20 ∧
    Real.sign (correction 250) = Real.sign 250 :=
  ⟨by norm_num, (c5_cross_track_bias.2 250 (by norm_num)).1,
   (c5_cross_track_bias.2 250 (by norm_num)).2⟩

/-! ## C4: the cached distance during one update tick -/

lemma speedStep_flag (perf : PerfFns) (tr : TrafficIn) (s : UpdState) :
    (speedStep perf tr s).flight_plan_updated = s.flight_plan_updated := rfl

lemma speedStep_dist (perf : PerfFns) (tr : TrafficIn) (s : UpdState) :
    (speedStep perf tr s).dist = s.dist := rfl

lemma speedStep_lat (perf : PerfFns) (tr : TrafficIn) (s : UpdState) :
    (speedStep perf tr s).lat = s.lat := rfl

lemma speedStep_long (perf : PerfFns) (tr : TrafficIn) (s : UpdState) :
    (speedStep perf tr s).long = s.long := rfl

lemma speedStep_lat_next (perf : PerfFns) (tr : TrafficIn) (s : UpdState) :
    (speedStep perf tr s).lat_next = s.lat_next := rfl

lemma speedStep_long_next (perf : PerfFns) (tr : TrafficIn) (s : UpdState) :
    (speedStep perf tr s).long_next = s.long_next := rfl

lemma speedStep_hv (perf : PerfFns) (tr : TrafficIn) (s : UpdState) :
    (speedStep perf tr s).hv_next_wp = s.hv_next_wp := rfl

lemma speedStep_track (perf : PerfFns) (tr : TrafficIn) (s : UpdState) :
    (speedStep perf tr s).track_angle = s.track_angle := rfl

lemma speedStep_lateral (perf : PerfFns) (tr : TrafficIn) (s : UpdState) :
    (speedStep perf tr s).lateral_mode = s.lateral_mode := rfl

/-- The leg-tracking step never touches the cached distance or the
flight-plan-updated flag. -/
lemma legTrack_frame (s s1 : UpdState) (h : legTrack s = some s1) :
    s1.flight_plan_updated = s.flight_plan_updated ∧ s1.dist = s.dist := by
  unfold legTrack at h
  split at h
  · dsimp only at h
    cases h1 : pyGetZ s.flight_plan_lat (s.flight_plan_index - 1) with
    | none => rw [h1] at h; simp at h
    | some latp =>
    rw [h1] at h
    simp only [Option.bind_eq_bind, Option.some_bind] at h
    cases h2 : pyGetZ s.flight_plan_long (s.flight_plan_index - 1) with
    | none => rw [h2] at h; simp at h
    | some longp =>
    rw [h2] at h
    simp only [Option.bind_eq_bind, Option.some_bind] at h
    cases h3 : pyGetZ s.flight_plan_lat s.flight_plan_index with
    | none => rw [h3] at h; simp at h
    | some la =>
    rw [h3] at h
    simp only [Option.bind_eq_bind, Option.some_bind] at h
    cases h4 : pyGetZ s.flight_plan_long s.flight_plan_index with
    | none => rw [h4] at h; simp at h
    | some lo =>
    rw [h4] at h
    simp only [Option.bind_eq_bind, Option.some_bind] at h
    split at h
    · simp only [Option.pure_def, Option.bind_eq_bind, Option.some_bind] at h
      split at h
      · cases h5 : pyGetZ s.flight_plan_target_alt s.flight_plan_index with
        | none => rw [h5] at h; simp at h
        | some a =>
          rw [h5] at h
          simp only [Option.bind_eq_bind, Option.some_bind,
            Option.some.injEq] at h
          obtain rfl := h.symm
          exact ⟨rfl, rfl⟩
      · simp only [Option.pure_def, Option.some.injEq] at h
        obtain rfl := h.symm
        exact ⟨rfl, rfl⟩
    · cases h5 : pyGetZ s.flight_plan_lat (s.flight_plan_index + 1) with
      | none => rw [h5] at h; simp at h
      | some lan =>
      rw [h5] at h
      simp only [Option.bind_eq_bind, Option.some_bind] at h
      cases h6 : pyGetZ s.flight_plan_long (s.flight_plan_index + 1) with
      | none => rw [h6] at h; simp at h
      | some lon =>
      rw [h6] at h
      simp only [Option.bind_eq_bind, Option.some_bind, Option.pure_def] at h
      split at h
      · cases h7 : pyGetZ s.flight_plan_target_alt s.flight_plan_index with
        | none => rw [h7] at h; simp at h
        | some a =>
          rw [h7] at h
          simp only [Option.bind_eq_bind, Option.some_bind,
            Option.some.injEq] at h
          obtain rfl := h.symm
          exact ⟨rfl, rfl⟩
      · simp only [Option.some.injEq] at h
        obtain rfl := h.symm
        exact ⟨rfl, rfl⟩
  · simp only [Option.pure_def, Option.some.injEq] at h
    obtain rfl := h.symm
    exact ⟨rfl, rfl⟩

/-- The holding state machine never touches the cached distance or the
flight-plan-updated flag. -/
lemma holdingStep_frame (cal : CalFns) (d : ℝ) (s out : UpdState)
    (h : holdingStep cal d s = some out) :
    out.flight_plan_updated = s.flight_plan_updated ∧ out.dist = s.dist := by
  unfold holdingStep at h
  split at h
  · split at h
    · simp only [Option.some.injEq] at h
      obtain rfl := h.symm
      exact ⟨rfl, rfl⟩
    · split at h
      · split at h
        · exact absurd h (by simp)
        · split at h
          · simp only [Option.some.injEq] at h
            obtain rfl := h.symm
            exact ⟨rfl, rfl⟩
          · simp only [Option.some.injEq] at h
            obtain rfl := h.symm
            exact ⟨rfl, rfl⟩
      · simp only [Option.some.injEq] at h
        obtain rfl := h.symm
        exact ⟨rfl, rfl⟩
  · split at h
    · exact absurd h (by simp)
    · dsimp only at h
      split at h
      · split at h
        · split at h
          · simp only [Option.some.injEq] at h
            obtain rfl := h.symm
            exact ⟨rfl, rfl⟩
          · simp only [Option.some.injEq] at h
            obtain rfl := h.symm
            exact ⟨rfl, rfl⟩
        · simp only [Option.some.injEq] at h
          obtain rfl := h.symm
          exact ⟨rfl, rfl⟩
      · split at h
        · split at h
          · simp only [Option.some.injEq] at h
            obtain rfl := h.symm
            exact ⟨rfl, rfl⟩
          · simp only [Option.some.injEq] at h
            obtain rfl := h.symm
            exact ⟨rfl, rfl⟩
        · simp only [Option.some.injEq] at h
          obtain rfl := h.symm
          exact ⟨rfl, rfl⟩

/-- The waypoint-advance condition as it holds during a tick that started with
the flight-plan-updated flag clear: the baseline compared against is the
previously cached distance, and the fresh distance and next-leg bearing are
taken after the leg-tracking step `s1`. -/
def advanceFired (cal : CalFns) (perf : PerfFns) (tr : TrafficIn)
    (s1 : UpdState) : Prop :=
  advCond cal tr
    { speedStep perf tr s1 with dist := s1.dist, flight_plan_updated := false }
    (freshDist cal tr (speedStep perf tr s1))

noncomputable instance (cal : CalFns) (perf : PerfFns) (tr : TrafficIn)
    (s1 : UpdState) : Decidable (advanceFired cal perf tr s1) := by
  unfold advanceFired; infer_instance

/-- C4 (amended): during one `Autopilot.update` tick that starts with the
flight-plan-updated flag clear, the flag is clear afterwards and the cached
distance is rewritten unconditionally: it becomes the distance to the new
next-leg target when the waypoint-advance condition fires, and otherwise the
tick's freshly computed distance to the current target (autopilot.py line 524
writes `dist` — the fresh value — in the no-advance branch, not the old
cache). -/
theorem c4_dist_rewritten (cal : CalFns) (perf : PerfFns) (tr : TrafficIn)
    (s s1 : UpdState) (out : UpdState × ℕ)
    (hflag : s.flight_plan_updated = false)
    (hlt : legTrack s = some s1)
    (h : update cal perf tr s = some out) :
    out.1.flight_plan_updated = false ∧
    out.1.dist = (if advanceFired cal perf tr s1 then
        cal.great_circle_dist tr.lat tr.long s1.lat_next s1.long_next
      else freshDist cal tr s1) := by
  have hflag1 : s1.flight_plan_updated = false :=
    (legTrack_frame s s1 hlt).1.trans hflag
  have hdist1 : s1.dist = s.dist := (legTrack_frame s s1 hlt).2
  unfold update at h
  rw [hlt] at h
  simp only [Option.bind_eq_bind, Option.some_bind] at h
  simp only [Option.bind_eq_bind, Option.bind_eq_some, Option.pure_def,
    Option.some.injEq] at h
  obtain ⟨s7, hs7, rfl⟩ := h
  obtain ⟨hf, hd⟩ := holdingStep_frame _ _ _ _ hs7
  constructor
  · rw [hf]
    simp [speedStep_flag, hflag1]
  · rw [hd]
    simp only [speedStep_flag, speedStep_dist, speedStep_lat, speedStep_long,
      speedStep_lat_next, speedStep_long_next, speedStep_hv, speedStep_track,
      speedStep_lateral, hflag1, Bool.false_eq_true, if_false,
      advanceFired, freshDist]

/-- Concrete geodesy callbacks for the C4 evaluation: taxicab distance,
constant bearing 90, plain difference as angle difference, zero cross-track
deviation. -/
noncomputable def cal0 : CalFns where
  great_circle_dist := fun la lo la2 lo2 => |la2 - la| + |lo2 - lo|
  great_circle_bearing := fun _ _ _ _ => 90
  angle_diff := fun a b => a - b
  dist_off_path := fun _ _ _ _ _ _ => 0

/-- Concrete performance callbacks for the C4 evaluation: everything zero. -/
def perf0 : PerfFns where
  get_procedure_speed := fun _ _ _ => 0
  get_bank_angles := fun _ => 0
  cal_turn_radius := fun _ _ => 0
  cas_to_tas := fun _ _ _ => 0
  tas_to_cas := fun _ _ _ => 0
  tas_to_mach := fun _ _ => 0
  mach_to_tas := fun _ _ => 0

/-- Concrete traffic inputs for the C4 evaluation: aircraft at the origin,
heading 250 (far from the next-leg bearing 90, so no waypoint advance), calm
wind. -/
def tr0 : TrafficIn where
  lat := 0
  long := 0
  alt := 0
  heading := 250
  cas := 140
  mach := 0
  tas := 1
  trans_alt := 0
  configuration := 0
  max_cas := 999
  max_mach := 9
  speed_mode := SPEEDMODE_CAS
  weather := { p := 0, rho := 0, T := 0, wind_speed := 0, wind_direction := 0 }

/-- Concrete autopilot slot for the C4 evaluation: LNAV, flag clear, cached
distance 100, leg pointer 1 of a three-leg plan. -/
def s0 : UpdState where
  alt := 5
  heading := 250
  track_angle := 250
  cas := 140
  mach := 0
  lat := 0
  long := 0
  lat_next := 0
  long_next := 0
  lat_prev := 0
  long_prev := 0
  hv_next_wp := false
  dist := 100
  flight_plan_index := 1
  flight_plan_name := [str "A", str "B", str "C"]
  flight_plan_lat := [0, 3, 6]
  flight_plan_long := [0, 4, 6]
  flight_plan_target_alt := [0, 0, 0]
  procedure_speed := 0
  speed_mode := 0
  auto_throttle_mode := THROTTLE_SPEED
  lateral_mode := LATERAL_LNAV
  flight_plan_updated := false
  holding := false
  holding_round := 0
  holding_info := none

/-- The leg-tracking result on `s0`. -/
def s0led : UpdState :=
  { s0 with lat_prev := 0, long_prev := 0, lat := 3, long := 4, lat_next := 6,
            long_next := 6, hv_next_wp := true, alt := 0 }

lemma c4_legTrack_eval : legTrack s0 = some s0led := rfl

/-- The autopilot slot after one update tick on the concrete C4 inputs: the
cached distance has become the fresh distance 7 (it was 100), the leg pointer
is unchanged and the flag is still clear. -/
def c4out : UpdState :=
  { s0led with heading := 90, track_angle := 90, dist := 7,
               speed_mode := SPEED_CONSTANT_CAS }

lemma c4_update_eval : update cal0 perf0 tr0 s0 = some (c4out, VERTICAL_LEVEL) := by
  unfold update
  rw [c4_legTrack_eval]
  simp only [Option.bind_eq_bind, Option.some_bind]
  norm_num [speedStep, verticalModeOf, freshDist, nextTrackAngle, advCond,
    correction, holdingStep, kts2mpsR, mps2ktsR, deg2radR, s0led, s0, c4out,
    cal0, perf0, tr0, Real.exp_zero, Real.arcsin_zero, Real.tan_zero, min_def,
    LATERAL_LNAV, LATERAL_HEADING, THROTTLE_AUTO, THROTTLE_SPEED,
    SPEEDMODE_CAS, SPEEDMODE_MACH, SPEED_CONSTANT_CAS, SPEED_CONSTANT_MACH,
    SPEED_ACCELERATE, SPEED_DECELERATE, VERTICAL_CLIMB, VERTICAL_LEVEL,
    VERTICAL_DESCENT]

/-- Counterexample to C4 as stated: a tick on a concrete aircraft whose
flight-plan-updated flag is clear and whose waypoint-advance condition does
not fire (the leg pointer is unchanged), yet whose cached baseline distance is
overwritten — it was 100 before the tick and is the fresh distance 7 after —
because autopilot.py line 524 writes the fresh distance in the no-advance
branch. -/
theorem c4_counterexample :
    update cal0 perf0 tr0 s0 = some (c4out, VERTICAL_LEVEL) ∧
    s0.flight_plan_updated = false ∧
    c4out.flight_plan_index = s0.flight_plan_index ∧
    c4out.dist ≠ s0.dist :=
  ⟨c4_update_eval, rfl, rfl, by norm_num [c4out, s0led, s0]⟩

/-- Witness: the amended C4 theorem applied to the concrete tick. -/
theorem c4_dist_rewritten_witness :
    s0.flight_plan_updated = false ∧ legTrack s0 = some s0led ∧
    update cal0 perf0 tr0 s0 = some (c4out, VERTICAL_LEVEL) ∧
    (c4out, VERTICAL_LEVEL).1.flight_plan_updated = false ∧
    (c4out, VERTICAL_LEVEL).1.dist =
      (if advanceFired cal0 perf0 tr0 s0led then
        cal0.great_circle_dist tr0.lat tr0.long s0led.lat_next s0led.long_next
      else freshDist cal0 tr0 s0led) :=
  ⟨rfl, c4_legTrack_eval, c4_update_eval,
   (c4_dist_rewritten cal0 perf0 tr0 s0 s0led (c4out, VERTICAL_LEVEL) rfl
     c4_legTrack_eval c4_update_eval).1,
   (c4_dist_rewritten cal0 perf0 tr0 s0 s0led (c4out, VERTICAL_LEVEL) rfl
     c4_legTrack_eval c4_update_eval).2⟩

end AirTrafficSim
